import Mathlib

/-!
# FortranInterop: the C++/CLI glue between managed callers and the Fortran library

Two source files are embedded here.

* `Fortran.h` declares six native entry points (`extern "C" __declspec(dllimport)`).
  It is embedded twice: as a table of declarations (`Fortran_h`, the text of the
  header) and as a record of native behaviours (`NativeLib`, one field per symbol,
  typed after the declared signature).
* `FortranGlue.h` defines `FortranInterop::FortranWrapper` with its two static
  methods `ReturnInteger` and `ReturnIntegerIsoC`.  Each is embedded as a function
  on an explicit machine state (a store of `int` cells, a stack pointer and the log
  of native invocations), so that taking the address of the by-value parameter,
  the single native call and the returned value are all visible.
-/

namespace FortranInterop

/-! ## Machine values -/

/-- Smallest value of a C `int` / `System::Int32`. -/
def INT32_MIN : Int := -2147483648

/-- Largest value of a C `int` / `System::Int32`. -/
def INT32_MAX : Int := 2147483647

/-- A 32-bit two's complement integer: `System::Int32` and the native `int` are the
same type in C++/CLI, so one type stands for both. -/
def Int32 : Type := { v : Int // INT32_MIN ≤ v ∧ v ≤ INT32_MAX }

instance : DecidableEq Int32 := fun a b =>
  if h : a.val = b.val then isTrue (Subtype.ext h) else isFalse (fun e => h (congrArg Subtype.val e))

/-- The 64-bit pattern of a C `double`. -/
def Double : Type := { bits : Nat // bits < 18446744073709551616 }

instance : DecidableEq Double := fun a b =>
  if h : a.val = b.val then isTrue (Subtype.ext h) else isFalse (fun e => h (congrArg Subtype.val e))

/-! ## Fortran.h as a table of declarations -/

/-- The six external symbols declared in `Fortran.h`. -/
inductive Symbol where
  | __interop_MOD_return_integer
  | return_integer_c
  | __interop_MOD_copy_integer
  | copy_integer_c
  | __interop_MOD_return_double
  | return_double_c
  deriving DecidableEq, Repr

/-- C types occurring in `Fortran.h`. -/
inductive CType where
  | void
  | int
  | double
  deriving DecidableEq, Repr

/-- How a parameter is passed: `T x` is by value, `T *x` is by address. -/
inductive Passing where
  | byValue
  | byAddress
  deriving DecidableEq, Repr

/-- One parameter of a declaration, e.g. `int *value`. -/
structure Param where
  name : String
  pointee : CType
  passing : Passing
  deriving DecidableEq, Repr

/-- One `extern "C" __declspec(dllimport)` declaration. -/
structure Decl where
  symbol : Symbol
  ret : CType
  params : List Param
  deriving DecidableEq, Repr

/-- The declarations of `Fortran.h`, in file order. -/
def Fortran_h : List Decl :=
  [ ⟨.__interop_MOD_return_integer, .int, [⟨"value", .int, .byAddress⟩]⟩,
    ⟨.return_integer_c, .int, [⟨"value", .int, .byAddress⟩]⟩,
    ⟨.__interop_MOD_copy_integer, .void, [⟨"a", .int, .byAddress⟩, ⟨"b", .int, .byAddress⟩]⟩,
    ⟨.copy_integer_c, .void, [⟨"a", .int, .byAddress⟩, ⟨"b", .int, .byAddress⟩]⟩,
    ⟨.__interop_MOD_return_double, .double, [⟨"value", .double, .byAddress⟩]⟩,
    ⟨.return_double_c, .double, [⟨"value", .double, .byAddress⟩]⟩ ]

/-- Every parameter of the declaration is passed by address. -/
def Decl.allByAddress (d : Decl) : Bool :=
  d.params.all (fun p => p.passing == .byAddress)

/-- The return type is integer or floating-point. -/
def Decl.returnsNumber (d : Decl) : Bool :=
  d.ret == .int || d.ret == .double

/-! ## Fortran.h as native behaviours

The bodies of the native functions are Fortran and are not part of the glue; a native
function is therefore a parameter.  Its type follows the declared signature: it sees
the cells its pointer arguments address, and either faults or returns, leaving new
contents in those cells. -/

/-- Behaviour of an `int f(int *value)`: from the addressed integer to a fault, or to
the returned integer together with the integer left at the address. -/
abbrev IntFn (ε : Type) : Type := Int32 → Except ε (Int32 × Int32)

/-- Behaviour of a `void f(int *a, int *b)`: from the two addressed integers to a
fault, or to the integers left at `a` and at `b`. -/
abbrev CopyFn (ε : Type) : Type := Int32 → Int32 → Except ε (Int32 × Int32)

/-- Behaviour of a `double f(double *value)`: from the addressed double to a fault, or
to the returned double together with the double left at the address. -/
abbrev DoubleFn (ε : Type) : Type := Double → Except ε (Double × Double)

/-- The native library the glue links against: one behaviour per declared symbol. -/
structure NativeLib (ε : Type) where
  __interop_MOD_return_integer : IntFn ε
  return_integer_c : IntFn ε
  __interop_MOD_copy_integer : CopyFn ε
  copy_integer_c : CopyFn ε
  __interop_MOD_return_double : DoubleFn ε
  return_double_c : DoubleFn ε

/-- The native function returns the integer stored at the address it receives
(whatever it leaves at that address). -/
def ReturnsStored {ε : Type} (f : IntFn ε) : Prop :=
  ∀ x : Int32, ∃ w : Int32, f x = .ok (x, w)

/-! ## Machine state -/

/-- Address of an `int` cell. -/
abbrev Addr : Type := Nat

/-- One native invocation: the symbol called, the address passed and the integer
stored at that address when the call is made. -/
structure NativeCall where
  symbol : Symbol
  addr : Addr
  pointee : Int32
  deriving DecidableEq

/-- State of the running program: the `int` cells, the first free stack slot and the
native invocations made so far, oldest first. -/
structure Machine where
  store : Addr → Int32
  sp : Addr
  calls : List NativeCall

/-- Store `v` at address `a`. -/
def write {α : Type} (s : Addr → α) (a : Addr) (v : α) : Addr → α :=
  fun x => if x = a then v else s x

/-- What a wrapper hands back: the returned integer or the propagated fault, and the
machine state it leaves. -/
structure Return (ε : Type) where
  outcome : Except ε Int32
  machine : Machine

/-- A call `f(p)` of a native `int f(int *)` through symbol `sym`: the call is logged,
the native function sees the cell at `p` and may overwrite it. -/
def callIntFn {ε : Type} (sym : Symbol) (f : IntFn ε) (p : Addr) (m : Machine) :
    Except ε Int32 × Machine :=
  let m1 : Machine := { m with calls := m.calls ++ [⟨sym, p, m.store p⟩] }
  match f (m.store p) with
  | .error e => (.error e, m1)
  | .ok (r, w) => (.ok r, { m1 with store := write m1.store p w })

/-- A call `f(pa, pb)` of a native `void f(int *a, int *b)`: the native function sees
the cells at `pa` and `pb` and leaves new contents in them (first `a`, then `b`). -/
def callCopyFn {ε : Type} (f : CopyFn ε) (pa pb : Addr) (s : Addr → Int32) :
    Except ε (Addr → Int32) :=
  match f (s pa) (s pb) with
  | .error e => .error e
  | .ok (a, b) => .ok (write (write s pa a) pb b)

/-- A call `f(p)` of a native `double f(double *)`: the native function sees the cell
at `p`, returns a double and leaves new contents in the cell. -/
def callDoubleFn {ε : Type} (f : DoubleFn ε) (p : Addr) (s : Addr → Double) :
    Except ε (Double × (Addr → Double)) :=
  match f (s p) with
  | .error e => .error e
  | .ok (r, w) => .ok (r, write s p w)

/-- Modelled from the spec: the body of the native copy-integer routine behind
`__interop_MOD_copy_integer` and `copy_integer_c`, which is Fortran and not among the
glue sources. The spec: with source `a`, the destination holds `a` afterward, its prior
value fully overwritten. -/
def copy_integer {ε : Type} : CopyFn ε := fun a _ => .ok (a, a)

/-- Modelled from the spec: the body of the native return-double routine behind
`__interop_MOD_return_double` and `return_double_c`, which is Fortran and not among the
glue sources. The spec: it yields the double it is given, unchanged bit for bit. -/
def return_double {ε : Type} : DoubleFn ε := fun d => .ok (d, d)

namespace FortranWrapper

/-- `static Int32 ReturnInteger(Int32 value)`:
the by-value parameter `value` occupies a fresh stack slot; the body is
`result = __interop_MOD_return_integer(&value); return result;`. -/
def ReturnInteger {ε : Type} (lib : NativeLib ε) (value : Int32) (m : Machine) : Return ε :=
  let p : Addr := m.sp
  let m1 : Machine := { m with store := write m.store p value, sp := p + 1 }
  match callIntFn .__interop_MOD_return_integer lib.__interop_MOD_return_integer p m1 with
  | (.error e, m2) => ⟨.error e, { m2 with sp := m.sp }⟩
  | (.ok result, m2) => ⟨.ok result, { m2 with sp := m.sp }⟩

/-- `static Int32 ReturnIntegerIsoC(Int32 value)`:
the by-value parameter `value` occupies a fresh stack slot; the body is
`result = return_integer_c(&value); return result;`. -/
def ReturnIntegerIsoC {ε : Type} (lib : NativeLib ε) (value : Int32) (m : Machine) : Return ε :=
  let p : Addr := m.sp
  let m1 : Machine := { m with store := write m.store p value, sp := p + 1 }
  match callIntFn .return_integer_c lib.return_integer_c p m1 with
  | (.error e, m2) => ⟨.error e, { m2 with sp := m.sp }⟩
  | (.ok result, m2) => ⟨.ok result, { m2 with sp := m.sp }⟩

/-- The methods of `FortranWrapper`; all of them stand under `public:` and are
`static`. -/
inductive Method where
  | ReturnInteger
  | ReturnIntegerIsoC
  deriving DecidableEq, Repr

/-- Signature of a method as written in the class body. -/
structure MethodSig where
  name : String
  isPublic : Bool
  isStatic : Bool
  ret : CType
  params : List Param
  deriving DecidableEq, Repr

/-- The signature of each method (`Int32` is the managed name of `int`). -/
def Method.sig : Method → MethodSig
  | .ReturnInteger => ⟨"ReturnInteger", true, true, .int, [⟨"value", .int, .byValue⟩]⟩
  | .ReturnIntegerIsoC => ⟨"ReturnIntegerIsoC", true, true, .int, [⟨"value", .int, .byValue⟩]⟩

/-- Run a method of the class. -/
def Method.run {ε : Type} (meth : Method) (lib : NativeLib ε) (value : Int32) (m : Machine) :
    Return ε :=
  match meth with
  | .ReturnInteger => FortranWrapper.ReturnInteger lib value m
  | .ReturnIntegerIsoC => FortranWrapper.ReturnIntegerIsoC lib value m

end FortranWrapper

/-! ## Observations on a run -/

/-- The native invocations added to the log between machine state `m` and the state
a wrapper leaves. -/
def callsMade {ε : Type} (m : Machine) (r : Return ε) : List NativeCall :=
  r.machine.calls.drop m.calls.length

/-- The `Int32` 0. -/
def Int32.zero : Int32 := ⟨0, by decide⟩

/-- The `Int32` 42. -/
def Int32.fortyTwo : Int32 := ⟨42, by decide⟩

/-- The `Int32` `INT32_MIN`. -/
def Int32.minValue : Int32 := ⟨INT32_MIN, by decide⟩

/-- The `Int32` `INT32_MAX`. -/
def Int32.maxValue : Int32 := ⟨INT32_MAX, by decide⟩

/-- What the native function answers, seen from outside: the fault, or the returned
integer (the integer left at the address is not part of the answer). -/
def response {ε : Type} (f : IntFn ε) (v : Int32) : Except ε Int32 :=
  match f v with
  | .error e => .error e
  | .ok (r, _) => .ok r

/-- The answer of the native function behind a method to the input `v`. -/
def answer {ε : Type} (lib : NativeLib ε) (meth : FortranWrapper.Method) (v : Int32) :
    Except ε Int32 :=
  match meth with
  | .ReturnInteger => response lib.__interop_MOD_return_integer v
  | .ReturnIntegerIsoC => response lib.return_integer_c v

/-- Method `meth` forwards to symbol `sym`: whatever the library, the input and the
machine state, the native invocations it makes are exactly one call of `sym`. -/
def ForwardsTo (meth : FortranWrapper.Method) (sym : Symbol) : Prop :=
  ∀ (ε : Type) (lib : NativeLib ε) (v : Int32) (m : Machine),
    (callsMade m (meth.run lib v m)).map NativeCall.symbol = [sym]

/-- A caller issuing wrapper calls one after another; the outcomes are collected in
call order together with the final machine state. -/
def runCalls {ε : Type} (lib : NativeLib ε) :
    List (FortranWrapper.Method × Int32) → Machine → List (Except ε Int32) × Machine
  | [], m => ([], m)
  | (meth, v) :: cs, m =>
    let r := meth.run lib v m
    let rest := runCalls lib cs r.machine
    (r.outcome :: rest.1, rest.2)

/-! ## Concrete libraries and states used as test inputs -/

/-- A machine with every cell zero, an empty stack and an empty log. -/
def Machine.init : Machine := ⟨fun _ => ⟨0, by decide⟩, 0, []⟩

/-- A machine whose caller holds 42 in the live cell 0; the stack top is 1. -/
def Machine.callerHolds42 : Machine := ⟨fun _ => ⟨42, by decide⟩, 1, []⟩

/-- An `int` store holding 7 in cell 0 and 99 in every other cell. -/
def store7and99 : Addr → Int32 := fun x => if x = 0 then ⟨7, by decide⟩ else ⟨99, by decide⟩

/-- The bit pattern of the double nearest to 3.14159 (`0x400921F9F01B866E`). -/
def Double.pi5 : Double := ⟨4614256650576692846, by decide⟩

/-- The bit pattern of `-0.0` (`0x8000000000000000`). -/
def Double.negZero : Double := ⟨9223372036854775808, by decide⟩

/-- The bit pattern of the largest finite double (`0x7FEFFFFFFFFFFFFF`). -/
def Double.maxFinite : Double := ⟨9218868437227405311, by decide⟩

/-- A `double` store holding the given pattern in every cell. -/
def storeOfDouble (d : Double) : Addr → Double := fun _ => d

/-- An `int f(int *value)` that returns `*value` and leaves it untouched. -/
def echoInt {ε : Type} : IntFn ε := fun x => .ok (x, x)

/-- An `int f(int *value)` that returns `*value` and then zeroes the cell. -/
def echoAndClear {ε : Type} : IntFn ε := fun x => .ok (x, ⟨0, by decide⟩)

/-- A `void f(int *a, int *b)` doing nothing. -/
def nopCopy {ε : Type} : CopyFn ε := fun a b => .ok (a, b)

/-- A `double f(double *value)` returning `*value`. -/
def echoDouble {ε : Type} : DoubleFn ε := fun d => .ok (d, d)

/-- A library whose two integer entry points behave as `f` and `g`. -/
def libOf {ε : Type} (f g : IntFn ε) : NativeLib ε :=
  ⟨f, g, nopCopy, nopCopy, echoDouble, echoDouble⟩

/-! ## Basic facts about the store and the two wrappers -/

theorem write_same {α : Type} (s : Addr → α) (a : Addr) (v : α) : write s a v a = v := by
  simp [write]

theorem write_other {α : Type} (s : Addr → α) (a x : Addr) (v : α) (h : x ≠ a) :
    write s a v x = s x := by
  simp [write, h]

namespace FortranWrapper

theorem ReturnInteger_outcome {ε : Type} (lib : NativeLib ε) (v : Int32) (m : Machine) :
    (ReturnInteger lib v m).outcome = response lib.__interop_MOD_return_integer v := by
  unfold ReturnInteger callIntFn response
  simp only [write_same]
  cases h : lib.__interop_MOD_return_integer v with
  | error e => rfl
  | ok rw => rfl

theorem ReturnIntegerIsoC_outcome {ε : Type} (lib : NativeLib ε) (v : Int32) (m : Machine) :
    (ReturnIntegerIsoC lib v m).outcome = response lib.return_integer_c v := by
  unfold ReturnIntegerIsoC callIntFn response
  simp only [write_same]
  cases h : lib.return_integer_c v with
  | error e => rfl
  | ok rw => rfl

theorem ReturnInteger_calls {ε : Type} (lib : NativeLib ε) (v : Int32) (m : Machine) :
    (ReturnInteger lib v m).machine.calls
      = m.calls ++ [⟨.__interop_MOD_return_integer, m.sp, v⟩] := by
  unfold ReturnInteger callIntFn
  simp only [write_same]
  cases h : lib.__interop_MOD_return_integer v with
  | error e => rfl
  | ok rw => rfl

theorem ReturnIntegerIsoC_calls {ε : Type} (lib : NativeLib ε) (v : Int32) (m : Machine) :
    (ReturnIntegerIsoC lib v m).machine.calls
      = m.calls ++ [⟨.return_integer_c, m.sp, v⟩] := by
  unfold ReturnIntegerIsoC callIntFn
  simp only [write_same]
  cases h : lib.return_integer_c v with
  | error e => rfl
  | ok rw => rfl

theorem ReturnInteger_sp {ε : Type} (lib : NativeLib ε) (v : Int32) (m : Machine) :
    (ReturnInteger lib v m).machine.sp = m.sp := by
  unfold ReturnInteger callIntFn
  simp only [write_same]
  cases h : lib.__interop_MOD_return_integer v with
  | error e => rfl
  | ok rw => rfl

theorem ReturnIntegerIsoC_sp {ε : Type} (lib : NativeLib ε) (v : Int32) (m : Machine) :
    (ReturnIntegerIsoC lib v m).machine.sp = m.sp := by
  unfold ReturnIntegerIsoC callIntFn
  simp only [write_same]
  cases h : lib.return_integer_c v with
  | error e => rfl
  | ok rw => rfl

theorem ReturnInteger_store_other {ε : Type} (lib : NativeLib ε) (v : Int32) (m : Machine)
    (x : Addr) (hx : x ≠ m.sp) : (ReturnInteger lib v m).machine.store x = m.store x := by
  unfold ReturnInteger callIntFn
  simp only [write_same]
  cases h : lib.__interop_MOD_return_integer v with
  | error e => simp [write_other _ _ _ _ hx]
  | ok rw => simp [write_other _ _ _ _ hx]

theorem ReturnIntegerIsoC_store_other {ε : Type} (lib : NativeLib ε) (v : Int32) (m : Machine)
    (x : Addr) (hx : x ≠ m.sp) : (ReturnIntegerIsoC lib v m).machine.store x = m.store x := by
  unfold ReturnIntegerIsoC callIntFn
  simp only [write_same]
  cases h : lib.return_integer_c v with
  | error e => simp [write_other _ _ _ _ hx]
  | ok rw => simp [write_other _ _ _ _ hx]

theorem ReturnInteger_store_param {ε : Type} (lib : NativeLib ε) (v r w : Int32) (m : Machine)
    (h : lib.__interop_MOD_return_integer v = .ok (r, w)) :
    (ReturnInteger lib v m).machine.store m.sp = w := by
  unfold ReturnInteger callIntFn
  simp only [write_same, h]

theorem ReturnIntegerIsoC_store_param {ε : Type} (lib : NativeLib ε) (v r w : Int32)
    (m : Machine) (h : lib.return_integer_c v = .ok (r, w)) :
    (ReturnIntegerIsoC lib v m).machine.store m.sp = w := by
  unfold ReturnIntegerIsoC callIntFn
  simp only [write_same, h]

end FortranWrapper

theorem response_of_returnsStored {ε : Type} (f : IntFn ε) (h : ReturnsStored f) (v : Int32) :
    response f v = .ok v := by
  obtain ⟨w, hw⟩ := h v
  simp [response, hw]

theorem returnsStored_echoInt {ε : Type} : ReturnsStored (echoInt : IntFn ε) :=
  fun x => ⟨x, rfl⟩

theorem returnsStored_echoAndClear {ε : Type} : ReturnsStored (echoAndClear : IntFn ε) :=
  fun x => ⟨⟨0, by decide⟩, rfl⟩

theorem callsMade_append {ε : Type} (m : Machine) (r : Return ε) (l : List NativeCall)
    (h : r.machine.calls = m.calls ++ l) : callsMade m r = l := by
  simp [callsMade, h]

theorem run_outcome {ε : Type} (lib : NativeLib ε) (meth : FortranWrapper.Method) (v : Int32)
    (m : Machine) : (meth.run lib v m).outcome = answer lib meth v := by
  cases meth with
  | ReturnInteger => exact FortranWrapper.ReturnInteger_outcome lib v m
  | ReturnIntegerIsoC => exact FortranWrapper.ReturnIntegerIsoC_outcome lib v m

theorem runCalls_outcomes {ε : Type} (lib : NativeLib ε)
    (cs : List (FortranWrapper.Method × Int32)) :
    ∀ m : Machine, (runCalls lib cs m).1 = cs.map (fun c => answer lib c.1 c.2) := by
  induction cs with
  | nil => intro m; rfl
  | cons c cs ih =>
    intro m
    obtain ⟨meth, v⟩ := c
    simp only [runCalls, List.map_cons, ih, run_outcome]

/-! ## The claims -/

namespace FortranWrapper

/-- C1: when the native `__interop_MOD_return_integer` returns the integer stored at the
address it receives, `ReturnInteger(v)` returns `v` for every 32-bit `v`, from every
machine state; in particular for 42, `INT32_MIN` and `INT32_MAX`. -/
theorem ReturnInteger_returns_input {ε : Type} (lib : NativeLib ε)
    (h : ReturnsStored lib.__interop_MOD_return_integer) :
    (∀ (v : Int32) (m : Machine), (ReturnInteger lib v m).outcome = .ok v) ∧
    (∀ m : Machine, (ReturnInteger lib Int32.fortyTwo m).outcome = .ok Int32.fortyTwo) ∧
    (∀ m : Machine, (ReturnInteger lib Int32.minValue m).outcome = .ok Int32.minValue) ∧
    (∀ m : Machine, (ReturnInteger lib Int32.maxValue m).outcome = .ok Int32.maxValue) := by
  have key : ∀ (v : Int32) (m : Machine), (ReturnInteger lib v m).outcome = .ok v := by
    intro v m
    rw [ReturnInteger_outcome, response_of_returnsStored _ h]
  exact ⟨key, key _, key _, key _⟩

/-- Witness of C1: with an echoing native function, `ReturnInteger(42)` is 42. -/
theorem ReturnInteger_returns_input_witness :
    ReturnsStored (libOf (echoInt : IntFn Nat) echoInt).__interop_MOD_return_integer ∧
    (ReturnInteger (libOf (echoInt : IntFn Nat) echoInt) Int32.fortyTwo Machine.init).outcome
      = .ok Int32.fortyTwo :=
  ⟨returnsStored_echoInt,
   (ReturnInteger_returns_input (libOf (echoInt : IntFn Nat) echoInt)
      returnsStored_echoInt).1 Int32.fortyTwo Machine.init⟩

/-- C2: when both native entry points return the integer stored at the address they
receive, `ReturnIntegerIsoC(v)` returns `v` and returns what `ReturnInteger(v)` returns,
for every 32-bit `v` and from every machine state. -/
theorem ReturnIntegerIsoC_returns_input {ε : Type} (lib : NativeLib ε)
    (h : ReturnsStored lib.__interop_MOD_return_integer)
    (hc : ReturnsStored lib.return_integer_c) (v : Int32) (m : Machine) :
    (ReturnIntegerIsoC lib v m).outcome = .ok v ∧
    (ReturnIntegerIsoC lib v m).outcome = (ReturnInteger lib v m).outcome := by
  rw [ReturnIntegerIsoC_outcome, ReturnInteger_outcome, response_of_returnsStored _ h,
    response_of_returnsStored _ hc]
  exact ⟨rfl, rfl⟩

/-- Witness of C2: the two entry points differ in what they leave at the address, both
return the stored integer, and both wrappers give `INT32_MIN` back. -/
theorem ReturnIntegerIsoC_returns_input_witness :
    ReturnsStored (libOf (echoInt : IntFn Nat) echoAndClear).__interop_MOD_return_integer ∧
    ReturnsStored (libOf (echoInt : IntFn Nat) echoAndClear).return_integer_c ∧
    (ReturnIntegerIsoC (libOf (echoInt : IntFn Nat) echoAndClear) Int32.minValue
        Machine.init).outcome = .ok Int32.minValue ∧
    (ReturnIntegerIsoC (libOf (echoInt : IntFn Nat) echoAndClear) Int32.minValue
        Machine.init).outcome
      = (ReturnInteger (libOf (echoInt : IntFn Nat) echoAndClear) Int32.minValue
        Machine.init).outcome :=
  ⟨returnsStored_echoInt, returnsStored_echoAndClear,
   ReturnIntegerIsoC_returns_input (libOf (echoInt : IntFn Nat) echoAndClear)
     returnsStored_echoInt returnsStored_echoAndClear Int32.minValue Machine.init⟩

/-- C6: the wrappers are a transparent conduit. For an arbitrary native behaviour, every
32-bit `v` and every machine state, `ReturnInteger(v)` and `ReturnIntegerIsoC(v)` yield
exactly `r` when their native call returns `r`, yield exactly the fault `e` when it
faults with `e`, and fail only when the native call itself faults. -/
theorem transparent_conduit {ε : Type} (lib : NativeLib ε) (v : Int32) (m : Machine) :
    (∀ r w : Int32, lib.__interop_MOD_return_integer v = .ok (r, w) →
        (ReturnInteger lib v m).outcome = .ok r) ∧
    (∀ e : ε, lib.__interop_MOD_return_integer v = .error e →
        (ReturnInteger lib v m).outcome = .error e) ∧
    (∀ e : ε, (ReturnInteger lib v m).outcome = .error e →
        lib.__interop_MOD_return_integer v = .error e) ∧
    (∀ r w : Int32, lib.return_integer_c v = .ok (r, w) →
        (ReturnIntegerIsoC lib v m).outcome = .ok r) ∧
    (∀ e : ε, lib.return_integer_c v = .error e →
        (ReturnIntegerIsoC lib v m).outcome = .error e) ∧
    (∀ e : ε, (ReturnIntegerIsoC lib v m).outcome = .error e →
        lib.return_integer_c v = .error e) := by
  rw [ReturnInteger_outcome, ReturnIntegerIsoC_outcome]
  unfold response
  refine ⟨?_, ?_, ?_, ?_, ?_, ?_⟩
  · intro r w h; rw [h]
  · intro e h; rw [h]
  · intro e h
    cases hf : lib.__interop_MOD_return_integer v with
    | error e1 => rw [hf] at h; simpa using h
    | ok rw1 => rw [hf] at h; cases h
  · intro r w h; rw [h]
  · intro e h; rw [h]
  · intro e h
    cases hf : lib.return_integer_c v with
    | error e1 => rw [hf] at h; simpa using h
    | ok rw1 => rw [hf] at h; cases h

/-- C9: each wrapper makes exactly one native invocation, of its own symbol, passing the
address of its parameter slot, which holds `v` at that moment; the two symbols are
distinct and neither wrapper calls the other one. -/
theorem single_call_through {ε : Type} (lib : NativeLib ε) (v : Int32) (m : Machine) :
    callsMade m (ReturnInteger lib v m) = [⟨.__interop_MOD_return_integer, m.sp, v⟩] ∧
    callsMade m (ReturnIntegerIsoC lib v m) = [⟨.return_integer_c, m.sp, v⟩] ∧
    Symbol.__interop_MOD_return_integer ≠ Symbol.return_integer_c ∧
    (∀ c ∈ callsMade m (ReturnInteger lib v m), c.symbol ≠ .return_integer_c) ∧
    (∀ c ∈ callsMade m (ReturnIntegerIsoC lib v m),
        c.symbol ≠ .__interop_MOD_return_integer) := by
  have h1 := callsMade_append m (ReturnInteger lib v m) _ (ReturnInteger_calls lib v m)
  have h2 := callsMade_append m (ReturnIntegerIsoC lib v m) _ (ReturnIntegerIsoC_calls lib v m)
  refine ⟨h1, h2, by decide, ?_, ?_⟩
  · intro c hc
    rw [h1] at hc
    simp only [List.mem_singleton] at hc
    subst hc
    intro hs
    cases hs
  · intro c hc
    rw [h2] at hc
    simp only [List.mem_singleton] at hc
    subst hc
    intro hs
    cases hs

/-- C10: the address handed to the native function is that of the wrapper's own copy of
the argument. If the native call on `v` returns `r` and leaves `w` at the address, the
wrapper returns `r`, the write lands in the wrapper's slot (the first free slot, dead
again after the return), and the caller's live cell `x` that supplied `v` still holds
`v`. -/
theorem native_write_discarded {ε : Type} (lib : NativeLib ε) (m : Machine) (x : Addr)
    (v r w rc wc : Int32) (hx : x < m.sp) (hv : m.store x = v)
    (h : lib.__interop_MOD_return_integer v = .ok (r, w))
    (hc : lib.return_integer_c v = .ok (rc, wc)) :
    (ReturnInteger lib (m.store x) m).outcome = .ok r ∧
    (ReturnInteger lib (m.store x) m).machine.store x = v ∧
    (ReturnInteger lib (m.store x) m).machine.store m.sp = w ∧
    (ReturnInteger lib (m.store x) m).machine.sp = m.sp ∧
    (ReturnIntegerIsoC lib (m.store x) m).outcome = .ok rc ∧
    (ReturnIntegerIsoC lib (m.store x) m).machine.store x = v ∧
    (ReturnIntegerIsoC lib (m.store x) m).machine.store m.sp = wc ∧
    (ReturnIntegerIsoC lib (m.store x) m).machine.sp = m.sp := by
  have hne : x ≠ m.sp := Nat.ne_of_lt hx
  rw [hv]
  refine ⟨?_, ?_, ?_, ?_, ?_, ?_, ?_, ?_⟩
  · rw [ReturnInteger_outcome]; simp [response, h]
  · rw [ReturnInteger_store_other lib v m x hne]; exact hv
  · exact ReturnInteger_store_param lib v r w m h
  · exact ReturnInteger_sp lib v m
  · rw [ReturnIntegerIsoC_outcome]; simp [response, hc]
  · rw [ReturnIntegerIsoC_store_other lib v m x hne]; exact hv
  · exact ReturnIntegerIsoC_store_param lib v rc wc m hc
  · exact ReturnIntegerIsoC_sp lib v m

/-- Witness of C10: the caller holds 42 in cell 0, the stack top is 1, and both native
functions return the stored integer and zero the cell. Both wrappers return 42, cell 0
still holds 42, and the zero sits in slot 1. -/
theorem native_write_discarded_witness :
    (0 : Addr) < Machine.callerHolds42.sp ∧
    (ReturnInteger (libOf (echoAndClear : IntFn Nat) echoAndClear)
        (Machine.callerHolds42.store 0) Machine.callerHolds42).outcome = .ok Int32.fortyTwo ∧
    (ReturnInteger (libOf (echoAndClear : IntFn Nat) echoAndClear)
        (Machine.callerHolds42.store 0) Machine.callerHolds42).machine.store 0
      = Int32.fortyTwo ∧
    (ReturnInteger (libOf (echoAndClear : IntFn Nat) echoAndClear)
        (Machine.callerHolds42.store 0) Machine.callerHolds42).machine.store
        Machine.callerHolds42.sp = Int32.zero ∧
    (ReturnInteger (libOf (echoAndClear : IntFn Nat) echoAndClear)
        (Machine.callerHolds42.store 0) Machine.callerHolds42).machine.sp
      = Machine.callerHolds42.sp ∧
    (ReturnIntegerIsoC (libOf (echoAndClear : IntFn Nat) echoAndClear)
        (Machine.callerHolds42.store 0) Machine.callerHolds42).outcome = .ok Int32.fortyTwo ∧
    (ReturnIntegerIsoC (libOf (echoAndClear : IntFn Nat) echoAndClear)
        (Machine.callerHolds42.store 0) Machine.callerHolds42).machine.store 0
      = Int32.fortyTwo ∧
    (ReturnIntegerIsoC (libOf (echoAndClear : IntFn Nat) echoAndClear)
        (Machine.callerHolds42.store 0) Machine.callerHolds42).machine.store
        Machine.callerHolds42.sp = Int32.zero ∧
    (ReturnIntegerIsoC (libOf (echoAndClear : IntFn Nat) echoAndClear)
        (Machine.callerHolds42.store 0) Machine.callerHolds42).machine.sp
      = Machine.callerHolds42.sp :=
  ⟨by decide,
   native_write_discarded (libOf (echoAndClear : IntFn Nat) echoAndClear)
     Machine.callerHolds42 0 Int32.fortyTwo Int32.fortyTwo Int32.zero Int32.fortyTwo
     Int32.zero (by decide) rfl rfl rfl⟩

end FortranWrapper

theorem forwardsTo_ReturnInteger (sym : Symbol) :
    ForwardsTo .ReturnInteger sym ↔ sym = .__interop_MOD_return_integer := by
  constructor
  · intro h
    have h1 := h Nat (libOf echoInt echoInt) Int32.fortyTwo Machine.init
    have h2 := callsMade_append Machine.init
      (FortranWrapper.Method.ReturnInteger.run (libOf (echoInt : IntFn Nat) echoInt)
        Int32.fortyTwo Machine.init) _
      (FortranWrapper.ReturnInteger_calls _ Int32.fortyTwo Machine.init)
    rw [h2] at h1
    simp only [List.map_cons, List.map_nil, List.cons.injEq, and_true] at h1
    exact h1.symm
  · intro h ε lib v m
    subst h
    have h2 := callsMade_append m (FortranWrapper.Method.ReturnInteger.run lib v m) _
      (FortranWrapper.ReturnInteger_calls lib v m)
    rw [h2]
    rfl

theorem forwardsTo_ReturnIntegerIsoC (sym : Symbol) :
    ForwardsTo .ReturnIntegerIsoC sym ↔ sym = .return_integer_c := by
  constructor
  · intro h
    have h1 := h Nat (libOf echoInt echoInt) Int32.fortyTwo Machine.init
    have h2 := callsMade_append Machine.init
      (FortranWrapper.Method.ReturnIntegerIsoC.run (libOf (echoInt : IntFn Nat) echoInt)
        Int32.fortyTwo Machine.init) _
      (FortranWrapper.ReturnIntegerIsoC_calls _ Int32.fortyTwo Machine.init)
    rw [h2] at h1
    simp only [List.map_cons, List.map_nil, List.cons.injEq, and_true] at h1
    exact h1.symm
  · intro h ε lib v m
    subst h
    have h2 := callsMade_append m (FortranWrapper.Method.ReturnIntegerIsoC.run lib v m) _
      (FortranWrapper.ReturnIntegerIsoC_calls lib v m)
    rw [h2]
    rfl

theorem forwarded_symbol (sym : Symbol) :
    (∃ meth : FortranWrapper.Method, ForwardsTo meth sym)
      ↔ sym = .__interop_MOD_return_integer ∨ sym = .return_integer_c := by
  constructor
  · rintro ⟨meth, h⟩
    cases meth with
    | ReturnInteger => exact Or.inl ((forwardsTo_ReturnInteger sym).1 h)
    | ReturnIntegerIsoC => exact Or.inr ((forwardsTo_ReturnIntegerIsoC sym).1 h)
  · rintro (h | h)
    · exact ⟨.ReturnInteger, (forwardsTo_ReturnInteger sym).2 h⟩
    · exact ⟨.ReturnIntegerIsoC, (forwardsTo_ReturnIntegerIsoC sym).2 h⟩

theorem run_sp {ε : Type} (lib : NativeLib ε) (meth : FortranWrapper.Method) (v : Int32)
    (m : Machine) : (meth.run lib v m).machine.sp = m.sp := by
  cases meth with
  | ReturnInteger => exact FortranWrapper.ReturnInteger_sp lib v m
  | ReturnIntegerIsoC => exact FortranWrapper.ReturnIntegerIsoC_sp lib v m

theorem run_store_other {ε : Type} (lib : NativeLib ε) (meth : FortranWrapper.Method)
    (v : Int32) (m : Machine) (x : Addr) (hx : x ≠ m.sp) :
    (meth.run lib v m).machine.store x = m.store x := by
  cases meth with
  | ReturnInteger => exact FortranWrapper.ReturnInteger_store_other lib v m x hx
  | ReturnIntegerIsoC => exact FortranWrapper.ReturnIntegerIsoC_store_other lib v m x hx

/-- C8: every forwarding call is independent. For a pure native library, the outcomes
of any sequence of wrapper calls are, call by call, the native answers to the inputs;
the outcome of a call is the same whichever calls were made before and from whichever
machine state; and a call leaves the stack pointer and every live cell as it found
them, so the wrappers keep no state of their own. -/
theorem calls_are_independent {ε : Type} (lib : NativeLib ε) :
    (∀ (cs : List (FortranWrapper.Method × Int32)) (m : Machine),
        (runCalls lib cs m).1 = cs.map (fun c => answer lib c.1 c.2)) ∧
    (∀ (before before2 : List (FortranWrapper.Method × Int32)) (m m2 : Machine)
        (meth : FortranWrapper.Method) (v : Int32),
        (meth.run lib v (runCalls lib before m).2).outcome
          = (meth.run lib v (runCalls lib before2 m2).2).outcome) ∧
    (∀ (meth : FortranWrapper.Method) (v : Int32) (m : Machine),
        (meth.run lib v m).machine.sp = m.sp ∧
        ∀ x : Addr, x < m.sp → (meth.run lib v m).machine.store x = m.store x) := by
  refine ⟨fun cs m => runCalls_outcomes lib cs m, ?_, ?_⟩
  · intro before before2 m m2 meth v
    rw [run_outcome, run_outcome]
  · intro meth v m
    exact ⟨run_sp lib meth v m, fun x hx => run_store_other lib meth v m x (Nat.ne_of_lt hx)⟩

/-- C5, as stated, fails: not every symbol declared in `Fortran.h` has a method of
`FortranWrapper` forwarding to it. -/
theorem one_method_per_symbol_fails :
    ¬ (∀ d ∈ Fortran_h, ∃ meth : FortranWrapper.Method, ForwardsTo meth d.symbol) := by
  intro h
  have h1 := h ⟨.__interop_MOD_copy_integer, .void,
    [⟨"a", .int, .byAddress⟩, ⟨"b", .int, .byAddress⟩]⟩ (by decide)
  rcases (forwarded_symbol _).1 h1 with h2 | h2 <;> cases h2

/-- C5, amended: `Fortran.h` declares six symbols; `FortranWrapper` has two methods, both
public and static; `ReturnInteger` forwards to `__interop_MOD_return_integer` and
`ReturnIntegerIsoC` to `return_integer_c`; no two methods forward to the same symbol;
and these two symbols are the only ones forwarded to, so the two copy-integer and the
two return-double symbols have no method. -/
theorem methods_forward_to_return_integer_symbols :
    Fortran_h.map Decl.symbol
      = [.__interop_MOD_return_integer, .return_integer_c, .__interop_MOD_copy_integer,
         .copy_integer_c, .__interop_MOD_return_double, .return_double_c] ∧
    (∀ meth : FortranWrapper.Method, meth.sig.isPublic = true ∧ meth.sig.isStatic = true) ∧
    ForwardsTo .ReturnInteger .__interop_MOD_return_integer ∧
    ForwardsTo .ReturnIntegerIsoC .return_integer_c ∧
    (∀ (m1 m2 : FortranWrapper.Method) (sym : Symbol),
        ForwardsTo m1 sym → ForwardsTo m2 sym → m1 = m2) ∧
    (∀ sym : Symbol, (∃ meth : FortranWrapper.Method, ForwardsTo meth sym)
        ↔ sym = .__interop_MOD_return_integer ∨ sym = .return_integer_c) := by
  refine ⟨rfl, ?_, (forwardsTo_ReturnInteger _).2 rfl, (forwardsTo_ReturnIntegerIsoC _).2 rfl,
    ?_, forwarded_symbol⟩
  · intro meth
    cases meth <;> exact ⟨rfl, rfl⟩
  · intro m1 m2 sym h1 h2
    cases m1 <;> cases m2
    · rfl
    · have a := (forwardsTo_ReturnInteger sym).1 h1
      have b := (forwardsTo_ReturnIntegerIsoC sym).1 h2
      rw [a] at b
      cases b
    · have a := (forwardsTo_ReturnIntegerIsoC sym).1 h1
      have b := (forwardsTo_ReturnInteger sym).1 h2
      rw [a] at b
      cases b
    · rfl

/-- C7, as stated, fails: not every declaration of `Fortran.h` has an integer or
floating-point return type (the two copy-integer entry points return `void`). -/
theorem return_type_number_fails :
    ¬ (∀ d ∈ Fortran_h, d.allByAddress = true ∧ d.returnsNumber = true) := by
  decide

/-- C7, amended: `Fortran.h` declares six entry points, each symbol once; every one of
the six declarations has a non-empty parameter list in which each parameter is passed
by address; the return type is `int` exactly for `__interop_MOD_return_integer` and
`return_integer_c`, `double` exactly for `__interop_MOD_return_double` and
`return_double_c`, and `void` exactly for `__interop_MOD_copy_integer` and
`copy_integer_c`; so the return type is integer or floating-point for every
declaration but the two copy-integer ones. -/
theorem declarations_by_address :
    Fortran_h.map Decl.symbol
      = [.__interop_MOD_return_integer, .return_integer_c, .__interop_MOD_copy_integer,
         .copy_integer_c, .__interop_MOD_return_double, .return_double_c] ∧
    ∀ d ∈ Fortran_h,
      d.params ≠ [] ∧ d.allByAddress = true ∧
      (d.ret = .int
        ↔ d.symbol = .__interop_MOD_return_integer ∨ d.symbol = .return_integer_c) ∧
      (d.ret = .double
        ↔ d.symbol = .__interop_MOD_return_double ∨ d.symbol = .return_double_c) ∧
      (d.ret = .void ↔ d.symbol = .__interop_MOD_copy_integer ∨ d.symbol = .copy_integer_c) ∧
      (d.returnsNumber = true
        ↔ ¬ (d.symbol = .__interop_MOD_copy_integer ∨ d.symbol = .copy_integer_c)) := by
  refine ⟨rfl, ?_⟩
  decide

/-- C3, as stated, fails: `FortranWrapper` has no managed copy-integer operation, no
method of the class forwards to either copy-integer symbol. -/
theorem managed_copy_integer_absent :
    ¬ ∃ meth : FortranWrapper.Method,
        ForwardsTo meth .__interop_MOD_copy_integer ∨ ForwardsTo meth .copy_integer_c := by
  rintro ⟨meth, h | h⟩
  · rcases (forwarded_symbol _).1 ⟨meth, h⟩ with h2 | h2 <;> cases h2
  · rcases (forwarded_symbol _).1 ⟨meth, h⟩ with h2 | h2 <;> cases h2

/-- C3, amended: a call of the native copy-integer entry point (its body modelled from
the spec) with the addresses of a source holding `a` and a destination holding `b`
leaves `a` in the destination, the source and every other cell unchanged; with 7 and 99
the destination becomes 7. `FortranWrapper` itself has no copy-integer method: no
method forwards to a copy-integer symbol, and every method takes a single `int` by
value, so none has a destination to expose. -/
theorem copy_integer_native_call {ε : Type} :
    (∀ (s : Addr → Int32) (pa pb : Addr),
        ∃ t : Addr → Int32, callCopyFn (copy_integer : CopyFn ε) pa pb s = .ok t ∧
          t pb = s pa ∧ t pa = s pa ∧ ∀ x : Addr, x ≠ pa → x ≠ pb → t x = s x) ∧
    (∃ t : Addr → Int32, callCopyFn (copy_integer : CopyFn ε) 0 1 store7and99 = .ok t ∧
        (store7and99 0).val = 7 ∧ (store7and99 1).val = 99 ∧ (t 1).val = 7) ∧
    (∀ meth : FortranWrapper.Method,
        ¬ ForwardsTo meth .__interop_MOD_copy_integer ∧ ¬ ForwardsTo meth .copy_integer_c) ∧
    (∀ meth : FortranWrapper.Method,
        meth.sig.params.map (fun p => (p.pointee, p.passing)) = [(.int, .byValue)]) := by
  refine ⟨?_, ?_, ?_, ?_⟩
  · intro s pa pb
    refine ⟨write (write s pa (s pa)) pb (s pa), rfl, write_same _ _ _, ?_, ?_⟩
    · by_cases h : pa = pb
      · rw [h]; exact write_same _ _ _
      · rw [write_other _ _ _ _ h]; exact write_same _ _ _
    · intro x hxa hxb
      rw [write_other _ _ _ _ hxb, write_other _ _ _ _ hxa]
  · exact ⟨write (write store7and99 0 (store7and99 0)) 1 (store7and99 0), rfl, rfl, rfl, rfl⟩
  · intro meth
    constructor
    · intro h
      rcases (forwarded_symbol _).1 ⟨meth, h⟩ with h2 | h2 <;> cases h2
    · intro h
      rcases (forwarded_symbol _).1 ⟨meth, h⟩ with h2 | h2 <;> cases h2
  · intro meth
    cases meth <;> rfl

/-- C4, as stated, fails: `FortranWrapper` has no managed return-double operation, no
method of the class forwards to either return-double symbol. -/
theorem managed_return_double_absent :
    ¬ ∃ meth : FortranWrapper.Method,
        ForwardsTo meth .__interop_MOD_return_double ∨ ForwardsTo meth .return_double_c := by
  rintro ⟨meth, h | h⟩
  · rcases (forwarded_symbol _).1 ⟨meth, h⟩ with h2 | h2 <;> cases h2
  · rcases (forwarded_symbol _).1 ⟨meth, h⟩ with h2 | h2 <;> cases h2

/-- C4, amended: a call of the native return-double entry point (its body modelled from
the spec) with the address of a cell holding the 64-bit pattern `d` returns the same
64-bit pattern and leaves the store as it was; so for the patterns of 3.14159, of
`-0.0` and of the largest finite double. `FortranWrapper` itself has no return-double
method: no method forwards to a return-double symbol, and every method returns `int`. -/
theorem return_double_native_call {ε : Type} :
    (∀ (s : Addr → Double) (p : Addr),
        ∃ (r : Double) (t : Addr → Double),
          callDoubleFn (return_double : DoubleFn ε) p s = .ok (r, t) ∧
          r.val = (s p).val ∧ ∀ x : Addr, t x = s x) ∧
    (∃ (r : Double) (t : Addr → Double),
        callDoubleFn (return_double : DoubleFn ε) 0 (storeOfDouble Double.pi5) = .ok (r, t) ∧
        r.val = 4614256650576692846) ∧
    (∃ (r : Double) (t : Addr → Double),
        callDoubleFn (return_double : DoubleFn ε) 0 (storeOfDouble Double.negZero)
          = .ok (r, t) ∧ r.val = 9223372036854775808) ∧
    (∃ (r : Double) (t : Addr → Double),
        callDoubleFn (return_double : DoubleFn ε) 0 (storeOfDouble Double.maxFinite)
          = .ok (r, t) ∧ r.val = 9218868437227405311) ∧
    (∀ meth : FortranWrapper.Method,
        ¬ ForwardsTo meth .__interop_MOD_return_double ∧
        ¬ ForwardsTo meth .return_double_c) ∧
    (∀ meth : FortranWrapper.Method, meth.sig.ret = .int) := by
  refine ⟨?_, ⟨_, _, rfl, rfl⟩, ⟨_, _, rfl, rfl⟩, ⟨_, _, rfl, rfl⟩, ?_, ?_⟩
  · intro s p
    refine ⟨s p, write s p (s p), rfl, rfl, ?_⟩
    intro x
    by_cases h : x = p
    · rw [h]; exact write_same _ _ _
    · exact write_other _ _ _ _ h
  · intro meth
    constructor
    · intro h
      rcases (forwarded_symbol _).1 ⟨meth, h⟩ with h2 | h2 <;> cases h2
    · intro h
      rcases (forwarded_symbol _).1 ⟨meth, h⟩ with h2 | h2 <;> cases h2
  · intro meth
    cases meth <;> rfl

end FortranInterop
